import Mathlib

/-!
Verification of the content-fetch orchestration and view-resolution logic of a
headless-blog Express server (src/server.js) against its specification.

The three route handlers (listing, single post, category archive), the sidebar
aggregator and the page-number / total-pages parsing are embedded as pure Lean
functions.  Upstream HTTP behaviour is abstracted as an oracle (`Upstream`)
mapping each kind of request the server can issue to a result: `Except Unit`
models network failure / non-2xx (axios rejection), and `Body` models the parsed
JSON body, which is either an array of entities or something of unexpected
shape.  Each handler returns the list of upstream requests it issues together
with the single render action (`res.status(...).render(view, bag)`) it performs.
-/

deriving instance DecidableEq for Except

namespace HeadlessBlog

/-- The fields of a WordPress post that the server inspects
(`post.title.rendered` on the single-post route; everything else is passed
through opaquely). -/
structure Post where
  id : Nat
  slug : String
  titleRendered : String
deriving Repr, DecidableEq

/-- The fields of a WordPress category that the server inspects:
`category.id` (posts filter) and `category.name` (archive title). -/
structure Category where
  id : Nat
  slug : String
  name : String
deriving Repr, DecidableEq

/-- A parsed JSON response body: either an array of entities (`list`) or a
value of unexpected shape (`nonList`), which is what `Array.isArray` tests
for in the JavaScript source. -/
inductive Body (α : Type) where
  | list (xs : List α)
  | nonList
deriving Repr, DecidableEq

/-- The part of an axios response to `GET /posts` that the server reads:
the body and the optional `x-wp-totalpages` header. -/
structure PostsResponse where
  data : Body Post
  totalPagesHeader : Option String
deriving Repr, DecidableEq

/-- JavaScript `parseInt(s, 10)`: skip leading whitespace, optional sign,
then the maximal run of decimal digits; `none` models `NaN`. -/
def digitsToNat (cs : List Char) : Nat :=
  cs.foldl (fun a c => a * 10 + (c.toNat - 48)) 0

/-- The maximal run of leading decimal digits. -/
def leadDigits (cs : List Char) : List Char :=
  cs.takeWhile (fun c => c.isDigit)

/-- `parseInt(s, 10)` from JavaScript, with `none` for `NaN`. -/
def parseIntJS (s : String) : Option Int :=
  match s.data.dropWhile (fun c => c.isWhitespace) with
  | '-' :: rest =>
      if (leadDigits rest).isEmpty then none
      else some (-(digitsToNat (leadDigits rest) : Int))
  | '+' :: rest =>
      if (leadDigits rest).isEmpty then none
      else some ((digitsToNat (leadDigits rest) : Int))
  | cs =>
      if (leadDigits cs).isEmpty then none
      else some ((digitsToNat (leadDigits cs) : Int))

/-- `parseInt(s, 10) || 1` applied to a possibly-absent string
(`parseInt(undefined, 10)` is `NaN`): the idiom used for both `currentPage`
(src/server.js:83,159) and `totalPages` (src/server.js:94,183).  `NaN` and
`0` are falsy, every other number (including negatives) is truthy. -/
def parseIntOr1 (s : Option String) : Int :=
  match s.bind parseIntJS with
  | none => 1
  | some n => if n = 0 then 1 else n

/-- The upstream WordPress REST API, abstracted as an oracle over the request
families the server issues.  `Except.error ()` models a network failure or
non-2xx response (an axios rejection). -/
structure Upstream where
  /-- `GET /posts?per_page=10&page=P` (listing route). -/
  postsPage : Int → Except Unit PostsResponse
  /-- `GET /categories?per_page=20&hide_empty=true` (sidebar). -/
  sidebarCats : Except Unit (Body Category)
  /-- `GET /posts?per_page=5` (sidebar recent posts). -/
  sidebarPosts : Except Unit (Body Post)
  /-- `GET /posts?slug=S&_embed=true` (single-post route). -/
  postBySlug : String → Except Unit (Body Post)
  /-- `GET /categories?slug=S` (archive route category lookup). -/
  categoryBySlug : String → Except Unit (Body Category)
  /-- `GET /posts?categories=ID&per_page=10&page=P` (archive route). -/
  categoryPosts : Nat → Int → Except Unit PostsResponse

/-- A record of one upstream request with the query parameters the server
builds for it. -/
inductive Request where
  | posts (perPage : Nat) (page : Int)
  | postsByCategory (categoryId : Nat) (perPage : Nat) (page : Int)
  | postsBySlug (slug : String) (embed : Bool)
  | categories (perPage : Nat) (hideEmpty : Bool)
  | recentPosts (perPage : Nat)
  | categoriesBySlug (slug : String)
deriving Repr, DecidableEq

/-- The data bag handed to `res.render`; each recognized key is `none` when
absent from the bag. -/
structure DataBag where
  posts : Option (Body Post)
  post : Option Post
  category : Option Category
  categories : Option (Body Category)
  recentPosts : Option (Body Post)
  title : Option String
  currentPage : Option Int
  totalPages : Option Int
  message : Option String
deriving Repr, DecidableEq

/-- The bag with every key absent. -/
def DataBag.empty : DataBag :=
  ⟨none, none, none, none, none, none, none, none, none⟩

/-- One `res.status(...).render(view, bag)` call (a bare `res.render` has
status 200). -/
structure RenderAction where
  status : Nat
  view : String
  bag : DataBag
deriving Repr, DecidableEq

/-- The sidebar result: `{categories, recentPosts}` (src/server.js:59-75). -/
structure SidebarData where
  categories : Body Category
  recentPosts : Body Post
deriving Repr, DecidableEq

/-- `getSidebarData` (src/server.js:59-75): fetch categories and recent posts
in parallel; if either call fails the `catch` returns
`{categories: [], recentPosts: []}`. -/
def getSidebarData (catsRes : Except Unit (Body Category))
    (postsRes : Except Unit (Body Post)) : SidebarData :=
  match catsRes, postsRes with
  | .ok c, .ok p => ⟨c, p⟩
  | _, _ => ⟨Body.list [], Body.list []⟩

/-- The two upstream requests `getSidebarData` issues
(src/server.js:62-65). -/
def sidebarRequests : List Request :=
  [Request.categories 20 true, Request.recentPosts 5]

/-- The render action of the home route's `catch` block
(src/server.js:111-114). -/
def homeError500 : RenderAction :=
  { status := 500, view := "error",
    bag := { DataBag.empty with
               message := some "Could not fetch posts. Please check the API connection.",
               title := some "Error" } }

/-- Home / paginated home route handler (src/server.js:80-116).  Returns the
requests issued and the render action performed. -/
def homeRoute (u : Upstream) (pageParam : Option String) :
    List Request × RenderAction :=
  (Request.posts 10 (parseIntOr1 pageParam) :: sidebarRequests,
   match u.postsPage (parseIntOr1 pageParam) with
   | .error _ => homeError500
   | .ok r =>
     match r.data with
     | .nonList => homeError500
     | .list ps =>
       { status := 200, view := "index",
         bag := { DataBag.empty with
                    posts := some (Body.list ps),
                    title := some "Modern Headless Blog",
                    categories := some (getSidebarData u.sidebarCats u.sidebarPosts).categories,
                    recentPosts := some (getSidebarData u.sidebarCats u.sidebarPosts).recentPosts,
                    currentPage := some (parseIntOr1 pageParam),
                    totalPages := some (parseIntOr1 r.totalPagesHeader) } })

/-- The render action of the single-post route's `catch` block
(src/server.js:146-149). -/
def postError500 : RenderAction :=
  { status := 500, view := "error",
    bag := { DataBag.empty with
               message := some "Could not fetch the post. Please check the API connection.",
               title := some "Error" } }

/-- The 404 render of the single-post route (src/server.js:132-136):
message, title and the spread sidebar data. -/
def postNotFound (sb : SidebarData) : RenderAction :=
  { status := 404, view := "error",
    bag := { DataBag.empty with
               message := some "The post you were looking for could not be found.",
               title := some "Post Not Found",
               categories := some sb.categories,
               recentPosts := some sb.recentPosts } }

/-- Single-post route handler (src/server.js:121-151). -/
def postRoute (u : Upstream) (slug : String) : List Request × RenderAction :=
  (Request.postsBySlug slug true :: sidebarRequests,
   match u.postBySlug slug with
   | .error _ => postError500
   | .ok Body.nonList => postNotFound (getSidebarData u.sidebarCats u.sidebarPosts)
   | .ok (Body.list []) => postNotFound (getSidebarData u.sidebarCats u.sidebarPosts)
   | .ok (Body.list (p :: _)) =>
     { status := 200, view := "single-post",
       bag := { DataBag.empty with
                  post := some p,
                  title := some p.titleRendered,
                  categories := some (getSidebarData u.sidebarCats u.sidebarPosts).categories,
                  recentPosts := some (getSidebarData u.sidebarCats u.sidebarPosts).recentPosts } })

/-- The render action of the archive route's `catch` block
(src/server.js:195-198). -/
def categoryError500 : RenderAction :=
  { status := 500, view := "error",
    bag := { DataBag.empty with
               message := some "Could not fetch posts for this category.",
               title := some "Error" } }

/-- The 404 render of the archive route (src/server.js:166-170). -/
def categoryNotFound (sb : SidebarData) : RenderAction :=
  { status := 404, view := "error",
    bag := { DataBag.empty with
               message := some "The category you were looking for could not be found.",
               title := some "Category Not Found",
               categories := some sb.categories,
               recentPosts := some sb.recentPosts } }

/-- Category archive route handler (src/server.js:156-200).  The sidebar and
category lookup always run; the posts fetch runs only once a category
resolved.  Note the posts body is rendered without an `Array.isArray`
check, unlike the home route. -/
def categoryRoute (u : Upstream) (slug : String) (pageParam : Option String) :
    List Request × RenderAction :=
  match u.categoryBySlug slug with
  | .error _ => (sidebarRequests ++ [Request.categoriesBySlug slug], categoryError500)
  | .ok Body.nonList =>
      (sidebarRequests ++ [Request.categoriesBySlug slug],
       categoryNotFound (getSidebarData u.sidebarCats u.sidebarPosts))
  | .ok (Body.list []) =>
      (sidebarRequests ++ [Request.categoriesBySlug slug],
       categoryNotFound (getSidebarData u.sidebarCats u.sidebarPosts))
  | .ok (Body.list (c :: _)) =>
      (sidebarRequests ++
         [Request.categoriesBySlug slug,
          Request.postsByCategory c.id 10 (parseIntOr1 pageParam)],
       match u.categoryPosts c.id (parseIntOr1 pageParam) with
       | .error _ => categoryError500
       | .ok r =>
         { status := 200, view := "category-archive",
           bag := { DataBag.empty with
                      posts := some r.data,
                      category := some c,
                      title := some ("Category: " ++ c.name),
                      categories := some (getSidebarData u.sidebarCats u.sidebarPosts).categories,
                      recentPosts := some (getSidebarData u.sidebarCats u.sidebarPosts).recentPosts,
                      currentPage := some (parseIntOr1 pageParam),
                      totalPages := some (parseIntOr1 r.totalPagesHeader) } })

/-- An upstream where every call succeeds with small well-shaped data; used
to evaluate the handlers at concrete inputs. -/
def okUpstream : Upstream where
  postsPage := fun _ => .ok ⟨Body.list [], some "1"⟩
  sidebarCats := .ok (Body.list [])
  sidebarPosts := .ok (Body.list [])
  postBySlug := fun _ => .ok (Body.list [⟨1, "hello", "Hello"⟩])
  categoryBySlug := fun _ => .ok (Body.list [⟨7, "news", "News"⟩])
  categoryPosts := fun _ _ => .ok ⟨Body.list [], some "3"⟩

/-- An upstream whose posts endpoints all fail (network error); the sidebar
calls succeed. -/
def postsDownUpstream : Upstream where
  postsPage := fun _ => .error ()
  sidebarCats := .ok (Body.list [])
  sidebarPosts := .ok (Body.list [])
  postBySlug := fun _ => .error ()
  categoryBySlug := fun _ => .ok (Body.list [⟨7, "news", "News"⟩])
  categoryPosts := fun _ _ => .error ()

/-- An upstream whose posts endpoints return 2xx but with a body of
unexpected (non-array) shape; the category lookup resolves "news" and no
other slug. -/
def mixedUpstream : Upstream where
  postsPage := fun _ => .ok ⟨Body.nonList, none⟩
  sidebarCats := .ok (Body.list [])
  sidebarPosts := .ok (Body.list [])
  postBySlug := fun _ => .ok Body.nonList
  categoryBySlug := fun s =>
    if s = "news" then .ok (Body.list [⟨7, "news", "News"⟩]) else .ok (Body.list [])
  categoryPosts := fun _ _ => .ok ⟨Body.nonList, none⟩

/-! ## Helper lemmas -/

theorem parseIntOr1_of_none (p : Option String) (h : p.bind parseIntJS = none) :
    parseIntOr1 p = 1 := by
  simp [parseIntOr1, h]

theorem parseIntOr1_of_zero (p : Option String) (h : p.bind parseIntJS = some 0) :
    parseIntOr1 p = 1 := by
  simp [parseIntOr1, h]

theorem parseIntOr1_of_nonzero (p : Option String) (n : Int)
    (h : p.bind parseIntJS = some n) (hn : n ≠ 0) : parseIntOr1 p = n := by
  simp [parseIntOr1, h, hn]

theorem parseIntOr1_pos (p : Option String)
    (h : ∀ n, p.bind parseIntJS = some n → 0 ≤ n) : 1 ≤ parseIntOr1 p := by
  unfold parseIntOr1
  cases hp : p.bind parseIntJS with
  | none => simp
  | some n =>
      have hn := h n hp
      by_cases h0 : n = 0
      · simp [h0]
      · simp [h0]
        omega

/-- The first component of `homeRoute` (the requests issued) is the same in
every branch. -/
theorem homeRoute_requests (u : Upstream) (p : Option String) :
    (homeRoute u p).1 = Request.posts 10 (parseIntOr1 p) :: sidebarRequests := rfl

/-- Any posts-by-category request the archive route issues carries the parsed
page number. -/
theorem categoryRoute_page_mem (u : Upstream) (slug : String) (p : Option String)
    (cid : Nat) (pg : Int)
    (h : Request.postsByCategory cid 10 pg ∈ (categoryRoute u slug p).1) :
    pg = parseIntOr1 p := by
  unfold categoryRoute at h
  cases hcb : u.categoryBySlug slug with
  | error e => simp [hcb, sidebarRequests] at h
  | ok b =>
      cases b with
      | nonList => simp [hcb, sidebarRequests] at h
      | list xs =>
          cases xs with
          | nil => simp [hcb, sidebarRequests] at h
          | cons c cs =>
              simp [hcb, sidebarRequests] at h
              tauto

/-! ## Sanity checks on concrete inputs -/

example : parseIntJS "-2" = some (-2) := by decide
example : parseIntJS "0abc" = some 0 := by decide
example : parseIntJS "2abc" = some 2 := by decide
example : parseIntJS "1.9" = some 1 := by decide
example : parseIntJS "abc" = none := by decide
example : parseIntOr1 (some "-2") = -2 := by decide
example : parseIntOr1 none = 1 := by decide
example : (homeRoute okUpstream (some "-2")).2.bag.currentPage = some (-2) := by decide
example : (categoryRoute mixedUpstream "news" none).2.view = "category-archive" := by decide

/-! ## Claim C1 -/

/-- Claim C1 as stated is false: a page-number parameter that parses to a
negative integer is NOT defaulted to 1.  At the concrete input "-2"
(the paginated home route with parameter "-2"),
`parseInt("-2", 10) || 1` evaluates to `-2` (truthy),
so `currentPage` is `-2` and the upstream posts request carries
`page=-2`, not `page=1`. -/
theorem C1_counterexample :
    parseIntJS "-2" = some (-2) ∧ (-2 : Int) < 0 ∧
    (homeRoute okUpstream (some "-2")).2.bag.currentPage = some (-2) ∧
    Request.posts 10 (-2) ∈ (homeRoute okUpstream (some "-2")).1 ∧
    Request.posts 10 1 ∉ (homeRoute okUpstream (some "-2")).1 := by
  decide

/-- Claim C1 (amended): for every page-number route parameter that is absent,
non-numeric, or parses to zero, the Listing and Taxonomy-Archive resolvers
use page 1: the parsed current page is 1, the listing posts request carries
`page=1`, and any archive posts request carries `page=1`.  (A parameter that
parses to a negative integer is used as-is, not defaulted.) -/
theorem C1_amended (u : Upstream) (p : Option String) (slug : String)
    (h : p.bind parseIntJS = none ∨ p.bind parseIntJS = some 0) :
    parseIntOr1 p = 1 ∧
    Request.posts 10 1 ∈ (homeRoute u p).1 ∧
    (∀ cid pg, Request.postsByCategory cid 10 pg ∈ (categoryRoute u slug p).1 →
      pg = 1) := by
  have h1 : parseIntOr1 p = 1 := by
    cases h with
    | inl h => exact parseIntOr1_of_none p h
    | inr h => exact parseIntOr1_of_zero p h
  refine ⟨h1, ?_, ?_⟩
  · rw [homeRoute_requests, h1]
    exact List.mem_cons_self _ _
  · intro cid pg hmem
    rw [categoryRoute_page_mem u slug p cid pg hmem, h1]

/-- Witness for C1 at the concrete input: absent page parameter. -/
theorem C1_witness :
    parseIntOr1 none = 1 ∧
    Request.posts 10 1 ∈ (homeRoute okUpstream none).1 ∧
    (∀ cid pg,
      Request.postsByCategory cid 10 pg ∈ (categoryRoute okUpstream "news" none).1 →
      pg = 1) :=
  C1_amended okUpstream none "news" (Or.inl rfl)

/-! ## Claim C2 -/

/-- Claim C2 as stated is false: with page parameter "-2" the listing resolver
renders the success view with `currentPage = -2` in the data bag, which is
not a positive integer. -/
theorem C2_counterexample :
    (homeRoute okUpstream (some "-2")).2.view = "index" ∧
    (homeRoute okUpstream (some "-2")).2.bag.currentPage = some (-2) ∧
    ¬ (1 ≤ (-2 : Int)) := by
  decide

/-- Claim C2 (amended): in every data bag passed to the renderer that carries
pagination state, `currentPage` is a positive integer and `totalPages` is at
least 1, provided the page-number route parameter does not parse to a
negative integer and no upstream total-page-count header parses to a
negative integer.  (A negative parse of either is passed through by
`parseInt(x, 10) || 1` and violates the invariant.) -/
theorem C2_amended (u : Upstream) (p : Option String) (slug : String)
    (hp : ∀ n, p.bind parseIntJS = some n → 0 ≤ n)
    (hhome : ∀ pg r n, u.postsPage pg = .ok r →
      r.totalPagesHeader.bind parseIntJS = some n → 0 ≤ n)
    (hcat : ∀ cid pg r n, u.categoryPosts cid pg = .ok r →
      r.totalPagesHeader.bind parseIntJS = some n → 0 ≤ n) :
    (∀ cp, (homeRoute u p).2.bag.currentPage = some cp → 1 ≤ cp) ∧
    (∀ tp, (homeRoute u p).2.bag.totalPages = some tp → 1 ≤ tp) ∧
    (∀ cp, (categoryRoute u slug p).2.bag.currentPage = some cp → 1 ≤ cp) ∧
    (∀ tp, (categoryRoute u slug p).2.bag.totalPages = some tp → 1 ≤ tp) := by
  have hcp : 1 ≤ parseIntOr1 p := parseIntOr1_pos p hp
  refine ⟨?_, ?_, ?_, ?_⟩
  · intro cp hbag
    unfold homeRoute at hbag
    cases hpp : u.postsPage (parseIntOr1 p) with
    | error e => simp [hpp, homeError500, DataBag.empty] at hbag
    | ok r =>
        cases hd : r.data with
        | nonList => simp [hpp, hd, homeError500, DataBag.empty] at hbag
        | list ps =>
            simp [hpp, hd, DataBag.empty] at hbag
            omega
  · intro tp hbag
    unfold homeRoute at hbag
    cases hpp : u.postsPage (parseIntOr1 p) with
    | error e => simp [hpp, homeError500, DataBag.empty] at hbag
    | ok r =>
        cases hd : r.data with
        | nonList => simp [hpp, hd, homeError500, DataBag.empty] at hbag
        | list ps =>
            simp [hpp, hd, DataBag.empty] at hbag
            have := parseIntOr1_pos r.totalPagesHeader
              (fun n hn => hhome (parseIntOr1 p) r n hpp hn)
            omega
  · intro cp hbag
    unfold categoryRoute at hbag
    cases hcb : u.categoryBySlug slug with
    | error e => simp [hcb, categoryError500, DataBag.empty] at hbag
    | ok b =>
        cases b with
        | nonList => simp [hcb, categoryNotFound, DataBag.empty] at hbag
        | list xs =>
            cases xs with
            | nil => simp [hcb, categoryNotFound, DataBag.empty] at hbag
            | cons c cs =>
                cases hpp : u.categoryPosts c.id (parseIntOr1 p) with
                | error e =>
                    simp [hcb, hpp, categoryError500, DataBag.empty] at hbag
                | ok r =>
                    simp [hcb, hpp, DataBag.empty] at hbag
                    omega
  · intro tp hbag
    unfold categoryRoute at hbag
    cases hcb : u.categoryBySlug slug with
    | error e => simp [hcb, categoryError500, DataBag.empty] at hbag
    | ok b =>
        cases b with
        | nonList => simp [hcb, categoryNotFound, DataBag.empty] at hbag
        | list xs =>
            cases xs with
            | nil => simp [hcb, categoryNotFound, DataBag.empty] at hbag
            | cons c cs =>
                cases hpp : u.categoryPosts c.id (parseIntOr1 p) with
                | error e =>
                    simp [hcb, hpp, categoryError500, DataBag.empty] at hbag
                | ok r =>
                    simp [hcb, hpp, DataBag.empty] at hbag
                    have := parseIntOr1_pos r.totalPagesHeader
                      (fun n hn => hcat c.id (parseIntOr1 p) r n hpp hn)
                    omega

/-- Witness for C2 at concrete inputs: `okUpstream`, absent page parameter,
slug "news"; all headers are "1" or "3", which parse non-negative. -/
theorem C2_witness :
    (∀ cp, (homeRoute okUpstream none).2.bag.currentPage = some cp → 1 ≤ cp) ∧
    (∀ tp, (homeRoute okUpstream none).2.bag.totalPages = some tp → 1 ≤ tp) ∧
    (∀ cp, (categoryRoute okUpstream "news" none).2.bag.currentPage = some cp →
      1 ≤ cp) ∧
    (∀ tp, (categoryRoute okUpstream "news" none).2.bag.totalPages = some tp →
      1 ≤ tp) :=
  C2_amended okUpstream none "news"
    (fun n h => by simp at h)
    (fun pg r n h1 h2 => by
      simp [okUpstream] at h1
      rw [← h1] at h2
      have : parseIntJS "1" = some 1 := by decide
      simp [this] at h2
      omega)
    (fun cid pg r n h1 h2 => by
      simp [okUpstream] at h1
      rw [← h1] at h2
      have : parseIntJS "3" = some 3 := by decide
      simp [this] at h2
      omega)

/-! ## Claim C3 -/

/-- Claim C3 (confirmed): whenever either of the two upstream calls of
`getSidebarData` fails, the function returns exactly
`{categories: [], recentPosts: []}` — never a partial combination.  (In this
total model the function also never raises: it is defined on all inputs and
the `catch` branch is the only failure path.) -/
theorem C3_sidebar (catsRes : Except Unit (Body Category))
    (postsRes : Except Unit (Body Post))
    (h : catsRes = .error () ∨ postsRes = .error ()) :
    getSidebarData catsRes postsRes = ⟨Body.list [], Body.list []⟩ := by
  cases catsRes with
  | error e => simp [getSidebarData]
  | ok c =>
      cases postsRes with
      | error e => simp [getSidebarData]
      | ok p =>
          cases h with
          | inl h => exact absurd h (by simp)
          | inr h => exact absurd h (by simp)

/-- Witness for C3: the categories call fails while the recent-posts call
succeeds with a non-empty list; the result is still both-empty. -/
theorem C3_witness :
    getSidebarData (.error ()) (.ok (Body.list [⟨1, "hello", "Hello"⟩])) =
      ⟨Body.list [], Body.list []⟩ :=
  C3_sidebar _ _ (Or.inl rfl)

/-! ## Claim C4 -/

/-- Claim C4 as stated is false: when the primary posts fetch fails, the home
route renders the error view with a data bag holding only `message` and
`title` — the `categories` and `recentPosts` keys are absent. -/
theorem C4_counterexample :
    (homeRoute postsDownUpstream none).2.view = "error" ∧
    (homeRoute postsDownUpstream none).2.bag.categories = none ∧
    (homeRoute postsDownUpstream none).2.bag.recentPosts = none := by
  decide

/-- Claim C4 (amended): every data bag passed to the renderer with a status
other than 500 (success and not-found renders) includes the keys
`categories` and `recentPosts`; the 500 error renders omit them, carrying
only `message` and `title`. -/
theorem C4_amended (u : Upstream) (p : Option String) (sl s2 : String) :
    ((homeRoute u p).2.status ≠ 500 →
      ((homeRoute u p).2.bag.categories).isSome ∧
      ((homeRoute u p).2.bag.recentPosts).isSome) ∧
    ((postRoute u sl).2.status ≠ 500 →
      ((postRoute u sl).2.bag.categories).isSome ∧
      ((postRoute u sl).2.bag.recentPosts).isSome) ∧
    ((categoryRoute u s2 p).2.status ≠ 500 →
      ((categoryRoute u s2 p).2.bag.categories).isSome ∧
      ((categoryRoute u s2 p).2.bag.recentPosts).isSome) := by
  refine ⟨?_, ?_, ?_⟩
  · unfold homeRoute
    cases hpp : u.postsPage (parseIntOr1 p) with
    | error e => simp [hpp, homeError500, DataBag.empty]
    | ok r =>
        cases hd : r.data with
        | nonList => simp [hpp, hd, homeError500, DataBag.empty]
        | list ps => simp [hpp, hd, DataBag.empty]
  · unfold postRoute
    cases hps : u.postBySlug sl with
    | error e => simp [hps, postError500, DataBag.empty]
    | ok b =>
        cases b with
        | nonList => simp [hps, postNotFound, DataBag.empty]
        | list xs =>
            cases xs with
            | nil => simp [hps, postNotFound, DataBag.empty]
            | cons q qs => simp [hps, DataBag.empty]
  · unfold categoryRoute
    cases hcb : u.categoryBySlug s2 with
    | error e => simp [hcb, categoryError500, DataBag.empty]
    | ok b =>
        cases b with
        | nonList => simp [hcb, categoryNotFound, DataBag.empty]
        | list xs =>
            cases xs with
            | nil => simp [hcb, categoryNotFound, DataBag.empty]
            | cons c cs =>
                cases hpp : u.categoryPosts c.id (parseIntOr1 p) with
                | error e => simp [hcb, hpp, categoryError500, DataBag.empty]
                | ok r => simp [hcb, hpp, DataBag.empty]

/-- Witness for C4 at concrete inputs. -/
theorem C4_witness :
    ((homeRoute okUpstream none).2.status ≠ 500 →
      ((homeRoute okUpstream none).2.bag.categories).isSome ∧
      ((homeRoute okUpstream none).2.bag.recentPosts).isSome) ∧
    ((postRoute okUpstream "hello").2.status ≠ 500 →
      ((postRoute okUpstream "hello").2.bag.categories).isSome ∧
      ((postRoute okUpstream "hello").2.bag.recentPosts).isSome) ∧
    ((categoryRoute okUpstream "news" none).2.status ≠ 500 →
      ((categoryRoute okUpstream "news" none).2.bag.categories).isSome ∧
      ((categoryRoute okUpstream "news" none).2.bag.recentPosts).isSome) :=
  C4_amended okUpstream none "hello" "news"

/-! ## Claim C5 -/

/-- Claim C5 as stated is false for the Single-Item resolver: when the posts
payload for a slug has unexpected (non-array) shape, the single-post route
renders the 404 "not found" view, not an HTTP 500 error view. -/
theorem C5_counterexample :
    mixedUpstream.postBySlug "a" = .ok Body.nonList ∧
    (postRoute mixedUpstream "a").2.status = 404 ∧
    (postRoute mixedUpstream "a").2.status ≠ 500 ∧
    (postRoute mixedUpstream "a").2.bag.message =
      some "The post you were looking for could not be found." := by
  decide

/-- Claim C5 (amended): on a primary posts payload of unexpected (non-array)
shape, the listing resolver renders the error view with HTTP 500 and a
generic message; the single-item resolver instead renders the 404 not-found
view; and the taxonomy-archive resolver performs no shape check at all,
rendering the archive success view (status 200). -/
theorem C5_amended (u : Upstream) (p : Option String) (sl s2 : String)
    (r r2 : PostsResponse) (c : Category) (cs : List Category)
    (h1 : u.postsPage (parseIntOr1 p) = .ok r) (h2 : r.data = Body.nonList)
    (h3 : u.postBySlug sl = .ok Body.nonList)
    (h4 : u.categoryBySlug s2 = .ok (Body.list (c :: cs)))
    (h5 : u.categoryPosts c.id (parseIntOr1 p) = .ok r2)
    (h6 : r2.data = Body.nonList) :
    (homeRoute u p).2.status = 500 ∧
    (homeRoute u p).2.bag.message =
      some "Could not fetch posts. Please check the API connection." ∧
    (postRoute u sl).2.status = 404 ∧
    (postRoute u sl).2.bag.message =
      some "The post you were looking for could not be found." ∧
    (categoryRoute u s2 p).2.status = 200 ∧
    (categoryRoute u s2 p).2.view = "category-archive" ∧
    (categoryRoute u s2 p).2.bag.posts = some Body.nonList := by
  refine ⟨?_, ?_, ?_, ?_, ?_, ?_, ?_⟩ <;>
    simp [homeRoute, postRoute, categoryRoute, h1, h2, h3, h4, h5, h6,
      homeError500, postNotFound, DataBag.empty]

/-- Witness for C5 at concrete inputs over `mixedUpstream`. -/
theorem C5_witness :
    (homeRoute mixedUpstream none).2.status = 500 ∧
    (homeRoute mixedUpstream none).2.bag.message =
      some "Could not fetch posts. Please check the API connection." ∧
    (postRoute mixedUpstream "a").2.status = 404 ∧
    (postRoute mixedUpstream "a").2.bag.message =
      some "The post you were looking for could not be found." ∧
    (categoryRoute mixedUpstream "news" none).2.status = 200 ∧
    (categoryRoute mixedUpstream "news" none).2.view = "category-archive" ∧
    (categoryRoute mixedUpstream "news" none).2.bag.posts = some Body.nonList :=
  C5_amended mixedUpstream none "a" "news" ⟨Body.nonList, none⟩
    ⟨Body.nonList, none⟩ ⟨7, "news", "News"⟩ []
    rfl rfl rfl (by decide) rfl rfl

/-! ## Claim C6 -/

/-- Claim C6 as stated is false: the taxonomy-archive resolver does NOT
validate that its posts payload is a sequence — with a non-array posts body
it still renders the archive success view, passing the malformed body
through in the data bag. -/
theorem C6_counterexample :
    mixedUpstream.categoryPosts 7 1 = .ok ⟨Body.nonList, none⟩ ∧
    (categoryRoute mixedUpstream "news" none).2.view = "category-archive" ∧
    (categoryRoute mixedUpstream "news" none).2.status = 200 ∧
    (categoryRoute mixedUpstream "news" none).2.bag.posts = some Body.nonList := by
  decide

/-- Claim C6 (amended): the listing and single-item resolvers validate the
shape of the posts payload before selecting a success view (a non-array
payload yields the error view); the taxonomy-archive resolver validates only
the category-lookup payload (empty or non-array lookup yields 404) and
renders the archive view with the posts body passed through unvalidated. -/
theorem C6_amended (u : Upstream) (p : Option String) (sl s2 s3 : String)
    (r1 r2 : PostsResponse) (c : Category) (cs : List Category)
    (h1 : u.postsPage (parseIntOr1 p) = .ok r1) (h2 : r1.data = Body.nonList)
    (h3 : u.postBySlug sl = .ok Body.nonList)
    (h4 : u.categoryBySlug s2 = .ok (Body.list []))
    (h5 : u.categoryBySlug s3 = .ok (Body.list (c :: cs)))
    (h6 : u.categoryPosts c.id (parseIntOr1 p) = .ok r2) :
    (homeRoute u p).2.view = "error" ∧
    (postRoute u sl).2.view = "error" ∧
    (categoryRoute u s2 p).2.status = 404 ∧
    (categoryRoute u s3 p).2.view = "category-archive" ∧
    (categoryRoute u s3 p).2.bag.posts = some r2.data := by
  refine ⟨?_, ?_, ?_, ?_, ?_⟩ <;>
    simp [homeRoute, postRoute, categoryRoute, h1, h2, h3, h4, h5, h6,
      homeError500, postNotFound, categoryNotFound, DataBag.empty]

/-- Witness for C6: over `mixedUpstream`, slug "old" resolves to no category
while "news" resolves to one whose posts body is non-array. -/
theorem C6_witness :
    (homeRoute mixedUpstream none).2.view = "error" ∧
    (postRoute mixedUpstream "a").2.view = "error" ∧
    (categoryRoute mixedUpstream "old" none).2.status = 404 ∧
    (categoryRoute mixedUpstream "news" none).2.view = "category-archive" ∧
    (categoryRoute mixedUpstream "news" none).2.bag.posts =
      some (PostsResponse.mk Body.nonList none).data :=
  C6_amended mixedUpstream none "a" "old" "news" ⟨Body.nonList, none⟩
    ⟨Body.nonList, none⟩ ⟨7, "news", "News"⟩ []
    rfl rfl rfl (by decide) (by decide) rfl

/-! ## Claim C7 -/

/-- Claim C7 (confirmed): whenever the category slug resolves to a category,
the archive route issues a posts request filtered by that category's numeric
identifier with `per_page=10` and the requested (parsed) page — and it never
issues a slug-filtered posts request. -/
theorem C7_categoryId (u : Upstream) (slug : String) (p : Option String)
    (c : Category) (cs : List Category)
    (h : u.categoryBySlug slug = .ok (Body.list (c :: cs))) :
    Request.postsByCategory c.id 10 (parseIntOr1 p) ∈ (categoryRoute u slug p).1 ∧
    (∀ s e, Request.postsBySlug s e ∉ (categoryRoute u slug p).1) := by
  constructor
  · simp [categoryRoute, h, sidebarRequests]
  · intro s e
    simp [categoryRoute, h, sidebarRequests]

/-- Witness for C7: over `okUpstream`, slug "news" resolves to the category
with id 7, and the posts request carries `categories=7`, `per_page=10`,
`page=1`. -/
theorem C7_witness :
    Request.postsByCategory 7 10 (parseIntOr1 none) ∈
      (categoryRoute okUpstream "news" none).1 ∧
    (∀ s e, Request.postsBySlug s e ∉ (categoryRoute okUpstream "news" none).1) :=
  C7_categoryId okUpstream "news" none ⟨7, "news", "News"⟩ [] rfl

/-! ## Claim C8 -/

/-- Claim C8 (confirmed): when the category-slug lookup returns an empty
sequence (or a non-sequence), the archive route responds 404 and renders the
error view with the dedicated message and with the gathered sidebar data in
the data bag. -/
theorem C8_notFound (u : Upstream) (slug : String) (p : Option String)
    (h : u.categoryBySlug slug = .ok (Body.list []) ∨
         u.categoryBySlug slug = .ok Body.nonList) :
    (categoryRoute u slug p).2.status = 404 ∧
    (categoryRoute u slug p).2.view = "error" ∧
    (categoryRoute u slug p).2.bag.message =
      some "The category you were looking for could not be found." ∧
    (categoryRoute u slug p).2.bag.categories =
      some (getSidebarData u.sidebarCats u.sidebarPosts).categories ∧
    (categoryRoute u slug p).2.bag.recentPosts =
      some (getSidebarData u.sidebarCats u.sidebarPosts).recentPosts := by
  cases h with
  | inl h => simp [categoryRoute, h, categoryNotFound, DataBag.empty]
  | inr h => simp [categoryRoute, h, categoryNotFound, DataBag.empty]

/-- Witness for C8: over `mixedUpstream`, the lookup for slug "old" returns
an empty list. -/
theorem C8_witness :
    (categoryRoute mixedUpstream "old" none).2.status = 404 ∧
    (categoryRoute mixedUpstream "old" none).2.view = "error" ∧
    (categoryRoute mixedUpstream "old" none).2.bag.message =
      some "The category you were looking for could not be found." ∧
    (categoryRoute mixedUpstream "old" none).2.bag.categories =
      some (getSidebarData mixedUpstream.sidebarCats mixedUpstream.sidebarPosts).categories ∧
    (categoryRoute mixedUpstream "old" none).2.bag.recentPosts =
      some (getSidebarData mixedUpstream.sidebarCats mixedUpstream.sidebarPosts).recentPosts :=
  C8_notFound mixedUpstream "old" none (Or.inl (by decide))

/-! ## Claim C9 -/

/-- Claim C9 as stated is false when the leading integer is 0: at input
"0abc", `parseInt` yields 0, which is falsy, so the resolver defaults to
page 1 rather than using the leading integer 0. -/
theorem C9_counterexample :
    parseIntJS "0abc" = some 0 ∧
    parseIntOr1 (some "0abc") = 1 ∧
    (homeRoute okUpstream (some "0abc")).2.bag.currentPage = some 1 ∧
    Request.posts 10 0 ∉ (homeRoute okUpstream (some "0abc")).1 := by
  decide

/-- Claim C9 (amended): for every page-number route parameter whose leading
characters form a nonzero (positive) decimal integer followed by further
characters (for example "2abc", or the fractional "1.9" whose integer prefix
is 1), `parseInt` yields that leading integer and the listing and archive
resolvers use it as the requested page rather than defaulting to 1.  (A
leading integer 0 is falsy and still defaults to page 1.) -/
theorem C9_amended (u : Upstream) (slug : String) (s : String) (n : Int)
    (h : parseIntJS s = some n) (hn : 0 < n) :
    parseIntOr1 (some s) = n ∧
    Request.posts 10 n ∈ (homeRoute u (some s)).1 ∧
    (∀ cid pg,
      Request.postsByCategory cid 10 pg ∈ (categoryRoute u slug (some s)).1 →
      pg = n) := by
  have h1 : parseIntOr1 (some s) = n :=
    parseIntOr1_of_nonzero (some s) n (by simp [h]) (by omega)
  refine ⟨h1, ?_, ?_⟩
  · rw [homeRoute_requests, h1]
    exact List.mem_cons_self _ _
  · intro cid pg hmem
    rw [categoryRoute_page_mem u slug (some s) cid pg hmem, h1]

/-- Witness for C9 at the concrete input "2abc", whose leading integer is 2. -/
theorem C9_witness :
    parseIntOr1 (some "2abc") = 2 ∧
    Request.posts 10 2 ∈ (homeRoute okUpstream (some "2abc")).1 ∧
    (∀ cid pg,
      Request.postsByCategory cid 10 pg ∈
        (categoryRoute okUpstream "news" (some "2abc")).1 →
      pg = 2) :=
  C9_amended okUpstream "news" "2abc" 2 (by decide) (by decide)

/-! ## Claim C10 -/

/-- Claim C10 (confirmed): on the archive route, when the sidebar calls and
the category lookup succeed but the posts fetch fails, the rendered 500
error view's data bag contains only `message` and `title`; every other
recognized key — including the sidebar data already gathered — is absent. -/
theorem C10_discardSidebar (u : Upstream) (slug : String) (p : Option String)
    (c : Category) (cs : List Category) (bc : Body Category) (bp : Body Post)
    (_hs1 : u.sidebarCats = .ok bc) (_hs2 : u.sidebarPosts = .ok bp)
    (h1 : u.categoryBySlug slug = .ok (Body.list (c :: cs)))
    (h2 : u.categoryPosts c.id (parseIntOr1 p) = .error ()) :
    (categoryRoute u slug p).2.status = 500 ∧
    (categoryRoute u slug p).2.view = "error" ∧
    (categoryRoute u slug p).2.bag.message =
      some "Could not fetch posts for this category." ∧
    (categoryRoute u slug p).2.bag.title = some "Error" ∧
    (categoryRoute u slug p).2.bag.categories = none ∧
    (categoryRoute u slug p).2.bag.recentPosts = none ∧
    (categoryRoute u slug p).2.bag.posts = none ∧
    (categoryRoute u slug p).2.bag.post = none ∧
    (categoryRoute u slug p).2.bag.category = none ∧
    (categoryRoute u slug p).2.bag.currentPage = none ∧
    (categoryRoute u slug p).2.bag.totalPages = none := by
  have hmain : (categoryRoute u slug p).2 = categoryError500 := by
    simp [categoryRoute, h1, h2]
  simp [hmain, categoryError500, DataBag.empty]

/-- Witness for C10: over `postsDownUpstream`, the sidebar succeeds with
empty lists, slug "news" resolves to the category with id 7, and the posts
fetch fails. -/
theorem C10_witness :
    (categoryRoute postsDownUpstream "news" none).2.status = 500 ∧
    (categoryRoute postsDownUpstream "news" none).2.view = "error" ∧
    (categoryRoute postsDownUpstream "news" none).2.bag.message =
      some "Could not fetch posts for this category." ∧
    (categoryRoute postsDownUpstream "news" none).2.bag.title = some "Error" ∧
    (categoryRoute postsDownUpstream "news" none).2.bag.categories = none ∧
    (categoryRoute postsDownUpstream "news" none).2.bag.recentPosts = none ∧
    (categoryRoute postsDownUpstream "news" none).2.bag.posts = none ∧
    (categoryRoute postsDownUpstream "news" none).2.bag.post = none ∧
    (categoryRoute postsDownUpstream "news" none).2.bag.category = none ∧
    (categoryRoute postsDownUpstream "news" none).2.bag.currentPage = none ∧
    (categoryRoute postsDownUpstream "news" none).2.bag.totalPages = none :=
  C10_discardSidebar postsDownUpstream "news" none ⟨7, "news", "News"⟩ []
    (Body.list []) (Body.list []) rfl rfl rfl rfl

end HeadlessBlog
